import Mathlib

/-!
Verification development for the loaner-device dashboard web server
(`server.py`, `asset_lib.py`, `exceptions.py`).

The Python code is shallowly embedded: request handlers become pure
functions from an environment (the remote TeamDynamix service state,
the id caches, today's date, and the console input stream) and a
request body to an outcome paired with the ordered list of remote
calls issued.  Python string identity (the `is` operator) is modelled
by giving status-id strings an explicit object-identity token.
-/

/-- Python string object: `oid` is the runtime object identity
(CPython `id`), `val` the character content.  `is` compares `oid`,
`==` compares `val`. -/
structure PyStr where
  oid : Nat
  val : String
deriving DecidableEq

/-- Entry of an asset's `Attributes` list.  Entries fetched from the
service carry a `Name`; entries appended by `inventory_asset` carry
only `ID` and `Value`, hence `Name : Option String`. -/
structure Attribute where
  Name : Option String
  ID : String
  Value : String
deriving DecidableEq

/-- Asset (device) record as used by `server.py` / `asset_lib.py`. -/
structure Asset where
  ID : Nat
  Tag : String
  StatusID : PyStr
  LocationID : String
  OwningCustomerID : String
  Attributes : List Attribute
deriving DecidableEq

/-- Ticket attribute: `Value` is the numeric choice id
(e.g. 43075 = request denied), `ValueText` its display text. -/
structure TicketAttr where
  Name : String
  Value : Int
  ValueText : String
deriving DecidableEq

/-- Ticket record. -/
structure Ticket where
  ID : Nat
  RequestorName : String
  Attributes : List TicketAttr
deriving DecidableEq

/-- Person record: opaque `UID` plus the human handle (`AlternateID`,
the uniqname). -/
structure Person where
  UID : String
  AlternateID : String
deriving DecidableEq

/-- Remote calls issued against the TeamDynamix service, in order. -/
inductive RCall where
  | searchPerson (alternateId : String)
  | searchAssets (tag : String)
  | getAsset (id : Nat)
  | searchTickets (requesterUid : String)
  | getTicket (id : Nat)
  | getTicketAssets (id : Nat)
  | getPerson (uid : String)
  | updateAsset (a : Asset)
  | attachAssetToTicket (ticket : Nat) (asset : Nat)
  | updateTicketStatus (ticket : Nat) (status : String) (note : String)
deriving DecidableEq

/-- Error taxonomy raised by the handlers.  `loanRequestDenied` and
`wrongAssetType` are modelled from the spec (§7): `server.py` refers
to `exceptions.LoanRequestDeniedException` and
`exceptions.WrongAssetTypeException`, whose class bodies are missing
from `exceptions.py`; per the spec they are distinct reportable kinds
carrying (ticket, requester) and (ticket, approved type). -/
inductive Err where
  | missingBody
  | malformedBody
  | invalidUniqname (uniqname : String)
  | invalidAsset (asset : String)
  | objectNotFound
  | personNotFound (uniqname : String)
  | multipleMatches (kind : String)
  | noLoanRequest (uniqname : String)
  | loanRequestDenied (ticket : Nat) (requester : String)
  | loanAlreadyFulfilled (ticket : Nat) (asset : String)
  | assetNotReadyToLoan (asset : String)
  | assetAlreadyCheckedIn (asset : String)
  | wrongAssetType (ticket : Nat) (approvedType : String)
deriving DecidableEq

/-- Non-taxonomy failures: Python-level crashes the code can hit. -/
inductive Crash where
  | typeError
  | keyError
  | exitAbort
deriving DecidableEq

/-- Outcome of an operation: a value, a taxonomy error, or a crash. -/
inductive Outc (α : Type) where
  | ok (a : α)
  | err (e : Err)
  | crash (c : Crash)
deriving DecidableEq

/-- Sequencing of (outcome, issued calls) pairs; calls accumulate. -/
def rbind {α β : Type} (x : Outc α × List RCall)
    (f : α → Outc β × List RCall) : Outc β × List RCall :=
  match x with
  | (Outc.ok a, cs) => let y := f a; (y.1, cs ++ y.2)
  | (Outc.err e, cs) => (Outc.err e, cs)
  | (Outc.crash c, cs) => (Outc.crash c, cs)

/-- Remote service state and process environment. -/
structure Env where
  getStatusId : String → PyStr
  getLocId : String → String
  getAttrId : String → String
  noOwnerUid : String
  today : String
  searchPerson : String → List Person
  searchAssets : String → List Asset
  getAsset : Nat → Option Asset
  searchTickets : String → List Ticket
  getTicket : Nat → Option Ticket
  getTicketAssets : Nat → List Nat
  getPerson : String → Option Person
  stdin : List Nat

/-! ## Regex models (`server.py` lines 15-22)

`uniqname_pattern = re.compile("^[a-z]{3,8}$")` and
`asset_pattern = re.compile("^((TRL|SAH)[0-9]{5})|SAHM[0-9]{4}")`,
both used through `re.Pattern.match`, i.e. anchored at the start of
the string only.  Python `$` also matches just before one trailing
newline. -/

/-- Lowercase ASCII letter, the character class `[a-z]`. -/
def isLowerCh (c : Char) : Bool := 97 ≤ c.toNat && c.toNat ≤ 122

/-- ASCII digit, the character class `[0-9]`. -/
def isDigitCh (c : Char) : Bool := 48 ≤ c.toNat && c.toNat ≤ 57

/-- Model of Python `str.lower` restricted to ASCII letters. -/
def asciiLower (s : String) : String :=
  String.mk (s.data.map (fun c =>
    if 65 ≤ c.toNat && c.toNat ≤ 90 then Char.ofNat (c.toNat + 32) else c))

/-- Character run that `[a-z]{3,8}` accepts in full. -/
def lowerCore (l : List Char) : Bool :=
  decide (3 ≤ l.length) && decide (l.length ≤ 8) && l.all isLowerCh

/-- Model of `uniqname_pattern.match s ≠ None`: the whole string is
3-8 lowercase letters, optionally followed by one final newline
(Python `$` semantics). -/
def uniqnameMatch (s : String) : Bool :=
  lowerCore s.data ||
    (match s.data.reverse with
     | c :: r => c == '\n' && lowerCore r
     | [] => false)

/-- First list is a leading run of the second. -/
def startsL : List Char → List Char → Bool
  | [], _ => true
  | _ :: _, [] => false
  | a :: as, b :: bs => a == b && startsL as bs

/-- Next `n` characters exist and are digits. -/
def digitRun : Nat → List Char → Bool
  | 0, _ => true
  | _ + 1, [] => false
  | n + 1, c :: r => isDigitCh c && digitRun n r

/-- Needle occurs as a contiguous substring (Python `in`). -/
def subL (needle : List Char) : List Char → Bool
  | [] => needle.isEmpty
  | c :: rest => startsL needle (c :: rest) || subL needle rest

/-- String-level substring containment, Python `needle in hay`. -/
def hasSub (needle hay : String) : Bool := subL needle.data hay.data

/-- Model of `asset_pattern.match s ≠ None`: the string starts with
`TRL` or `SAH` and five digits, or `SAHM` and four digits.  The
source pattern has no right anchor, so trailing characters are
allowed. -/
def assetMatch (s : String) : Bool :=
  (startsL ['T', 'R', 'L'] s.data && digitRun 5 (s.data.drop 3)) ||
  (startsL ['S', 'A', 'H'] s.data && digitRun 5 (s.data.drop 3)) ||
  (startsL ['S', 'A', 'H', 'M'] s.data && digitRun 4 (s.data.drop 4))

/-- Follows the spec's words (§4.1): a tag matching
`^((TRL|SAH)\d{5})|(SAHM\d{4})$` read as a whole-string pattern —
exactly `TRL` or `SAH` plus five digits, or exactly `SAHM` plus four
digits, nothing after.  Stated for comparison with `assetMatch`. -/
def specTagFull (s : String) : Bool :=
  (startsL ['T', 'R', 'L'] s.data && digitRun 5 (s.data.drop 3)
      && s.data.length == 8) ||
  (startsL ['S', 'A', 'H'] s.data && digitRun 5 (s.data.drop 3)
      && s.data.length == 8) ||
  (startsL ['S', 'A', 'H', 'M'] s.data && digitRun 4 (s.data.drop 4)
      && s.data.length == 8)

/-- Follows the spec's words (§4.1 tag grammar with §4.3 step 5): the
Windows-class tags are the `SAH`-plus-five-digits tags. -/
def windowsClassTag (s : String) : Bool :=
  startsL ['S', 'A', 'H'] s.data && digitRun 5 (s.data.drop 3)

/-- Follows the spec's words (§4.1 tag grammar with §4.3 step 5): the
Mac-class tags are the `SAHM`-plus-four-digits tags. -/
def macClassTag (s : String) : Bool :=
  startsL ['S', 'A', 'H', 'M'] s.data && digitRun 4 (s.data.drop 4)

/-! ## asset_lib.py -/

/-- Model of `tdxapi.get_ticket_attribute`: first attribute whose
`Name` equals the requested name (collaborator operation, per spec §6
a given typed-record accessor). -/
def findTicketAttr (t : Ticket) (name : String) : Option TicketAttr :=
  t.Attributes.find? (fun a => a.Name == name)

/-- First stdin entry in `1..bound`, mirroring the selection loop of
`_multiple_matches_chooser` (reads until a valid number). -/
def chooserLoop (bound : Nat) : List Nat → Option Nat
  | [] => none
  | c :: rest => if 1 ≤ c && c ≤ bound then some c else chooserLoop bound rest

/-- Model of `asset_lib._multiple_matches_chooser`: with more than 10
matches the process exits (`none`); otherwise the first valid console
selection picks an element; exhausted input is also a crash
(`none`). -/
def multipleMatchesChooser {α : Type} (stdin : List Nat)
    (ms : List α) : Option α :=
  if 10 < ms.length then none
  else
    match chooserLoop ms.length stdin with
    | some c => ms.drop (c - 1) |>.head?
    | none => none

/-- Names carried by an attribute list (the `existing_attributes`
accumulator of the `inventory_asset` loop). -/
def attrNames (l : List Attribute) : List String :=
  l.filterMap (fun a => a.Name)

/-- Body of the `inventory_asset` loop over `asset["Attributes"]`: a
`Notes` entry gets the new notes, a `Last Inventoried` entry gets
today's date, anything else is untouched. -/
def invWrite (today notes : String) (attr : Attribute) : Attribute :=
  let a1 := if attr.Name == some "Notes" then { attr with Value := notes }
            else attr
  if a1.Name == some "Last Inventoried" then { a1 with Value := today }
  else a1

/-- Model of `asset_lib.inventory_asset`: rewrite location, status and
owner, overwrite the `Notes` / `Last Inventoried` attributes in place
where present, append `Last Inventoried` only when absent and
`update_inv_date` is set, append `Notes` when absent and non-empty,
then issue one `update_asset` call.  Returns the mutated asset record
(the Python code mutates the caller's dict in place). -/
def inventory_asset (env : Env) (asset : Asset)
    (location_name status_name owner_uid notes : String)
    ( update_inv_date : Bool) : Asset × List RCall :=
  let locId := env.getLocId location_name
  let statusId := env.getStatusId status_name
  let ownerId := if owner_uid == "" then env.noOwnerUid else owner_uid
  let existing := attrNames asset.Attributes
  let attrs1 := asset.Attributes.map (invWrite env.today notes)
  let attrs2 :=
    if !(existing.contains "Last Inventoried") && update_inv_date then
      attrs1 ++ [⟨none, env.getAttrId "Last Inventoried", env.today⟩]
    else attrs1
  let attrs3 :=
    if !(existing.contains "Notes") && notes != "" then
      attrs2 ++ [⟨none, env.getAttrId "Notes", notes⟩]
    else attrs2
  let a2 := { asset with
    LocationID := locId
    StatusID := statusId
    OwningCustomerID := ownerId
    Attributes := attrs3 }
  (a2, [RCall.updateAsset a2])

/-- Model of `asset_lib.find_asset`: search by tag; zero matches raise
the collaborator's object-not-found error, a unique match is fetched
in full, several matches go through the interactive chooser. -/
def find_asset (env : Env) (tag : String) : Outc Asset × List RCall :=
  match env.searchAssets tag with
  | [] => (Outc.err Err.objectNotFound, [RCall.searchAssets tag])
  | [a] =>
    (match env.getAsset a.ID with
     | some deep => (Outc.ok deep, [RCall.searchAssets tag, RCall.getAsset a.ID])
     | none => (Outc.crash Crash.keyError,
         [RCall.searchAssets tag, RCall.getAsset a.ID]))
  | a :: b :: rest =>
    (match multipleMatchesChooser env.stdin (a :: b :: rest) with
     | none => (Outc.crash Crash.exitAbort, [RCall.searchAssets tag])
     | some chosen =>
       (match env.getAsset chosen.ID with
        | some deep =>
          (Outc.ok deep, [RCall.searchAssets tag, RCall.getAsset chosen.ID])
        | none => (Outc.crash Crash.keyError,
            [RCall.searchAssets tag, RCall.getAsset chosen.ID])))

/-- Model of `asset_lib.find_sah_request_ticket`: search the person's
Sites@Home request tickets; zero matches call `exit(...)` (a process
abort, not a taxonomy error), a unique match is fetched in full,
several matches go through the interactive chooser and the chosen one
is fetched in full. -/
def find_sah_request_ticket (env : Env) (requesterUid : String) :
    Outc Ticket × List RCall :=
  match env.searchTickets requesterUid with
  | [] => (Outc.crash Crash.exitAbort, [RCall.searchTickets requesterUid])
  | [t] =>
    (match env.getTicket t.ID with
     | some full => (Outc.ok full,
         [RCall.searchTickets requesterUid, RCall.getTicket t.ID])
     | none => (Outc.crash Crash.keyError,
         [RCall.searchTickets requesterUid, RCall.getTicket t.ID]))
  | t :: u :: rest =>
    (match multipleMatchesChooser env.stdin (t :: u :: rest) with
     | none => (Outc.crash Crash.exitAbort, [RCall.searchTickets requesterUid])
     | some chosen =>
       (match env.getTicket chosen.ID with
        | some full => (Outc.ok full,
            [RCall.searchTickets requesterUid, RCall.getTicket chosen.ID])
        | none => (Outc.crash Crash.keyError,
            [RCall.searchTickets requesterUid, RCall.getTicket chosen.ID])))

/-- Model of `asset_lib.check_out_asset` as defined (four parameters):
attach the asset to the ticket, read the loan term attribute, close
the ticket with the system note, then inventory the asset to Offsite /
On Loan with owner `person_uid` and notes of the form On Loan until the term text. -/
def check_out_asset (env : Env) (asset : Asset) (ticket : Ticket)
    (person_uid : String) : Outc Asset × List RCall :=
  match findTicketAttr ticket "sah_Loan Length (Term)" with
  | none => (Outc.crash Crash.keyError,
      [RCall.attachAssetToTicket ticket.ID asset.ID])
  | some la =>
    let r := inventory_asset env asset "Offsite" "On Loan" person_uid
      ("On Loan until " ++ la.ValueText) false
    (Outc.ok r.1,
      RCall.attachAssetToTicket ticket.ID asset.ID ::
      RCall.updateTicketStatus ticket.ID "Closed" "Checked out by Tech Consulting" ::
      r.2)

/-- Model of `asset_lib.check_in_asset`: when a ticket is supplied,
attach the asset to it and close it with the system note; then
inventory the asset to MICHIGAN UNION / In Stock - Reserved with the
owner cleared and the check-in note. -/
def check_in_asset (env : Env) (asset : Asset) (ticket : Option Ticket) :
    Asset × List RCall :=
  let tcalls := match ticket with
    | some t => [RCall.attachAssetToTicket t.ID asset.ID,
        RCall.updateTicketStatus t.ID "Closed" "Checked in by Tech Consulting"]
    | none => []
  let r := inventory_asset env asset "MICHIGAN UNION" "In Stock - Reserved"
    "" "Checked in by Tech Consulting" false
  (r.1, tcalls ++ r.2)

/-! ## server.py request handlers -/

/-- JSON request body; a missing key is `none`. -/
structure Body where
  uniqname : Option String
  asset : Option String
  comment : Option String
deriving DecidableEq

/-- Asset block of a success response. -/
structure AssetInfo where
  tag : String
  id : Nat
  comment : String
deriving DecidableEq

/-- Previous-owner block of the check-in success response. -/
structure PrevOwner where
  uniqname : String
  uid : String
deriving DecidableEq

/-- Success response of `POST /tdx/loan/return`. -/
structure DropoffResponse where
  asset : AssetInfo
  previous_owner : PrevOwner
deriving DecidableEq

/-- Loan block of the checkout success response. -/
structure LoanInfo where
  name : String
  date : String
  uniqname : String
  owner_uid : String
deriving DecidableEq

/-- Success response of `POST /tdx/loan/checkout`. -/
structure CheckoutResponse where
  asset : AssetInfo
  loan : LoanInfo
  ticket : Nat
deriving DecidableEq

/-- Model of the `dropoff` handler (`POST /tdx/loan/return`): body and
tag validation, asset lookup, the already-checked-in guard — the
source compares `asset["StatusID"] is available_id`, Python object
identity, modelled as `oid` equality — then the previous-owner
lookup.  The next statement, server.py:75-79, calls
`asset_lib.check_in_asset(tdx, asset, comment=body["comment"])`, but
`check_in_asset` has parameters `(tdx, asset, ticket)` and accepts no
`comment` keyword: the call raises TypeError before the callee runs,
so no mutation is issued and the success response at lines 82-92,
with its `previous_owner` block, is dead code. -/
def dropoff (env : Env) (body : Option Body) :
    Outc DropoffResponse × List RCall :=
  match body with
  | none => (Outc.err Err.missingBody, [])
  | some b =>
    match b.asset with
    | none => (Outc.err Err.malformedBody, [])
    | some tag =>
      if !(assetMatch tag) then (Outc.err (Err.invalidAsset tag), [])
      else
        rbind (find_asset env tag) (fun asset =>
          let availableId := env.getStatusId "In Stock - Available"
          if asset.StatusID.oid == availableId.oid then
            (Outc.err (Err.assetAlreadyCheckedIn asset.Tag), [])
          else
            match env.getPerson asset.OwningCustomerID with
            | none => (Outc.err (Err.personNotFound asset.OwningCustomerID),
                [RCall.getPerson asset.OwningCustomerID])
            | some _person =>
              (Outc.crash Crash.typeError,
                [RCall.getPerson asset.OwningCustomerID]))

/-- Model of the `checkout` handler (`POST /tdx/loan/checkout`).
Validation and the two concurrent lookups follow the source; the
owner await surfaces the collaborator's not-found or multiple-matches
failures.  `asset_lib.find_sah_request_ticket` is a synchronous
function — a plain def annotated to return a dict, built on the
synchronous `tdx.search_tickets` / `tdx.get_ticket` (server.py:150
itself calls `tdx.get_ticket` without await) — so it runs to
completion (issuing its searches, aborting on zero matches, or going
through the interactive chooser), and then server.py:147-148 awaits
the returned dict: a TypeError.  Everything after — the ticket
refetch, the approval guard (whose exceptions are in any case
constructed without raise at lines 156-165 and whose classes are
absent from exceptions.py), the fulfillment guard, the availability
guard (an `is not` identity test), the device-type guard (substring
tests for SAH0 / SAHM), and the `check_out_asset` call (itself five
positional arguments against four parameters) — is unreachable. -/
def checkout (env : Env) (body : Option Body) :
    Outc CheckoutResponse × List RCall :=
  match body with
  | none => (Outc.err Err.missingBody, [])
  | some b =>
  match b.uniqname with
  | none => (Outc.err Err.malformedBody, [])
  | some rawU =>
  match b.asset with
  | none => (Outc.err Err.malformedBody, [])
  | some tag =>
  let uniqname := asciiLower rawU
  if !(uniqnameMatch uniqname) then
    (Outc.err (Err.invalidUniqname uniqname), [])
  else if !(assetMatch tag) then (Outc.err (Err.invalidAsset tag), [])
  else
    let assetRes := find_asset env tag
    let startCalls := RCall.searchPerson uniqname :: assetRes.2
    match env.searchPerson uniqname with
    | [] => (Outc.err (Err.personNotFound uniqname), startCalls)
    | _ :: _ :: _ => (Outc.err (Err.multipleMatches "person"), startCalls)
    | [owner] =>
      let afterOwner := rbind (find_sah_request_ticket env owner.UID)
        (fun _tf => (Outc.crash Crash.typeError, []))
      (afterOwner.1, startCalls ++ afterOwner.2)

/-! ## Concrete scenario environments used by witnesses and
counterexamples -/

/-- Requester on file: uniqname `abcdef`, opaque UID `uidP`. -/
def pAbc : Person := { UID := "uidP", AlternateID := "abcdef" }

/-- Status-id cache of the scenario environments: each status name
maps to a distinct string object. -/
def scnStatusId : String → PyStr := fun n =>
  if n == "In Stock - Available" then ⟨11, "531"⟩
  else if n == "On Loan" then ⟨12, "532"⟩
  else if n == "In Stock - Reserved" then ⟨13, "533"⟩
  else ⟨10, "530"⟩

/-- Base scenario environment: empty remote service. -/
def env0 : Env := {
  getStatusId := scnStatusId
  getLocId := fun n => if n == "Offsite" then "L-OFF"
    else if n == "MICHIGAN UNION" then "L-MU" else "L-0"
  getAttrId := fun n => if n == "Notes" then "A-N"
    else if n == "Last Inventoried" then "A-LI" else "A-0"
  noOwnerUid := "no-owner"
  today := "10/12/2026"
  searchPerson := fun _ => []
  searchAssets := fun _ => []
  getAsset := fun _ => none
  searchTickets := fun _ => []
  getTicket := fun _ => none
  getTicketAssets := fun _ => []
  getPerson := fun _ => none
  stdin := []
}

/-- Checkout request body for requester `abcdef` and a given tag. -/
def bodyU (tag : String) : Body :=
  { uniqname := some "abcdef", asset := some tag, comment := none }

/-- Ticket whose approval attribute holds the Denied value 43075. -/
def tDenied : Ticket := {
  ID := 900
  RequestorName := "Req Name"
  Attributes := [⟨"sah_Request Status", 43075, "Denied"⟩,
                 ⟨"sah_Loan Length (Open date)", 0, "Jan 1"⟩]
}

/-- Ticket whose approval attribute holds a pending value, neither
43071 nor 43072. -/
def tPending : Ticket := {
  ID := 902
  RequestorName := "Req Name"
  Attributes := [⟨"sah_Request Status", 43070, "Pending"⟩,
                 ⟨"sah_Loan Length (Open date)", 0, "Jan 1"⟩]
}

/-- Device already attached to a loan ticket. -/
def aAttached : Asset := {
  ID := 77
  Tag := "SAH00077"
  StatusID := ⟨12, "532"⟩
  LocationID := "L-0"
  OwningCustomerID := "uidQ"
  Attributes := []
}

/-- Environment with a denied request ticket that already carries an
attached device. -/
def envDenied : Env := { env0 with
  searchPerson := fun q => if q == "abcdef" then [pAbc] else []
  searchTickets := fun u => if u == "uidP" then [tDenied] else []
  getTicket := fun i => if i == 900 then some tDenied else none
  getTicketAssets := fun i => if i == 900 then [77] else []
  getAsset := fun i => if i == 77 then some aAttached else none }

/-- Environment with a pending request ticket that already carries an
attached device. -/
def envPending : Env := { env0 with
  searchPerson := fun q => if q == "abcdef" then [pAbc] else []
  searchTickets := fun u => if u == "uidP" then [tPending] else []
  getTicket := fun i => if i == 902 then some tPending else none
  getTicketAssets := fun i => if i == 902 then [77] else []
  getAsset := fun i => if i == 77 then some aAttached else none }

/-- Windows-approved request ticket with no attached device. -/
def tApproved : Ticket := {
  ID := 901
  RequestorName := "Req Name"
  Attributes := [⟨"sah_Request Status", 43071, "Windows"⟩,
                 ⟨"sah_Loan Length (Open date)", 0, "Jan 1"⟩,
                 ⟨"sah_Loan Length (Term)", 0, "2 Weeks"⟩]
}

/-- Available device with tag `SAH01234`; its status id is the very
object the status cache holds, so the `is` test passes. -/
def aAvail : Asset := {
  ID := 5
  Tag := "SAH01234"
  StatusID := ⟨11, "531"⟩
  LocationID := "L-1"
  OwningCustomerID := "no-owner"
  Attributes := [⟨some "Notes", "A-N", "old"⟩,
                 ⟨some "Last Inventoried", "A-LI", "01/01/2020"⟩]
}

/-- Environment where every checkout guard passes for
`abcdef` / `SAH01234`. -/
def envGood : Env := { env0 with
  searchPerson := fun q => if q == "abcdef" then [pAbc] else []
  searchAssets := fun t => if t == "SAH01234" then [aAvail] else []
  getAsset := fun i => if i == 5 then some aAvail else none
  searchTickets := fun u => if u == "uidP" then [tApproved] else []
  getTicket := fun i => if i == 901 then some tApproved else none }

/-- Available device with tag `SAH12345`: a Windows-class tag by the
spec's grammar whose digit block does not start with 0. -/
def aAvail12 : Asset := {
  ID := 6
  Tag := "SAH12345"
  StatusID := ⟨11, "531"⟩
  LocationID := "L-1"
  OwningCustomerID := "no-owner"
  Attributes := []
}

/-- Environment reaching the device-type guard with a Windows-approved
ticket and the `SAH12345` device. -/
def envW12 : Env := { envGood with
  searchAssets := fun t => if t == "SAH12345" then [aAvail12] else []
  getAsset := fun i => if i == 6 then some aAvail12 else none }

/-- Loaned-out device: its status-id string equals the available id's
content `531` but is a distinct object (`oid` 99, not 11), the state
of a record freshly parsed from a service response. -/
def aLoaned : Asset := {
  ID := 6
  Tag := "TRL12345"
  StatusID := ⟨99, "531"⟩
  LocationID := "L-X"
  OwningCustomerID := "uidP"
  Attributes := [⟨some "Notes", "A-N", "old"⟩,
                 ⟨some "Last Inventoried", "A-LI", "01/01/2020"⟩]
}

/-- Check-in environment holding `aLoaned`, owned by `pAbc`. -/
def envRet : Env := { env0 with
  searchAssets := fun t => if t == "TRL12345" then [aLoaned] else []
  getAsset := fun i => if i == 6 then some aLoaned else none
  getPerson := fun u => if u == "uidP" then some pAbc else none }

/-- Check-in request body for `TRL12345`. -/
def bodyRet : Body :=
  { uniqname := none, asset := some "TRL12345", comment := some "left at desk" }

/-- Windows-approved ticket that already carries attached device 77. -/
def tApprFul : Ticket := {
  ID := 903
  RequestorName := "Req Name"
  Attributes := [⟨"sah_Request Status", 43071, "Windows"⟩,
                 ⟨"sah_Loan Length (Open date)", 0, "Jan 1"⟩]
}

/-- Environment with an approved but already fulfilled request
ticket. -/
def envFul : Env := { env0 with
  searchPerson := fun q => if q == "abcdef" then [pAbc] else []
  searchTickets := fun u => if u == "uidP" then [tApprFul] else []
  getTicket := fun i => if i == 903 then some tApprFul else none
  getTicketAssets := fun i => if i == 903 then [77] else []
  getAsset := fun i => if i == 77 then some aAttached else none }

/-- Two shallow search hits sharing the tag `TRL11111`. -/
def aShal1 : Asset := {
  ID := 21
  Tag := "TRL11111"
  StatusID := ⟨98, "532"⟩
  LocationID := "L-X"
  OwningCustomerID := "uidP"
  Attributes := []
}

/-- Second shallow search hit for `TRL11111`. -/
def aShal2 : Asset := {
  ID := 22
  Tag := "TRL11111"
  StatusID := ⟨98, "532"⟩
  LocationID := "L-X"
  OwningCustomerID := "uidP"
  Attributes := []
}

/-- Full record behind the second hit. -/
def aDeep2 : Asset := {
  ID := 22
  Tag := "TRL11111"
  StatusID := ⟨97, "532"⟩
  LocationID := "L-X"
  OwningCustomerID := "uidP"
  Attributes := [⟨some "Notes", "A-N", "x"⟩]
}

/-- Environment where the device search returns two matches and the
console selects the second. -/
def envDup : Env := { env0 with
  searchAssets := fun t => if t == "TRL11111" then [aShal1, aShal2] else []
  getAsset := fun i => if i == 22 then some aDeep2 else none
  getPerson := fun u => if u == "uidP" then some pAbc else none
  stdin := [2] }

/-- Check-in request body for `TRL11111`. -/
def bodyDup : Body :=
  { uniqname := none, asset := some "TRL11111", comment := none }

/-- Second person sharing the handle `abcdef` (an ecosystem
inconsistency). -/
def pAbc2 : Person := { UID := "uidR", AlternateID := "abcdef" }

/-- Environment where the person search returns two matches. -/
def envPdup : Env := { env0 with
  searchPerson := fun q => if q == "abcdef" then [pAbc, pAbc2] else [] }

/-- Device like `aLoaned` whose status id IS the cached available-id
object itself (oid 11): the identity test can fire. -/
def aLoanedSame : Asset := {
  ID := 7
  Tag := "TRL12346"
  StatusID := ⟨11, "531"⟩
  LocationID := "L-X"
  OwningCustomerID := "uidP"
  Attributes := [⟨some "Notes", "A-N", "old"⟩]
}

/-- Check-in environment holding `aLoanedSame`. -/
def envRetSame : Env := { env0 with
  searchAssets := fun t => if t == "TRL12346" then [aLoanedSame] else []
  getAsset := fun i => if i == 7 then some aLoanedSame else none
  getPerson := fun u => if u == "uidP" then some pAbc else none }

/-! ## Helper lemmas -/

/-- Name field is untouched by the attribute-overwrite step. -/
theorem invWrite_Name (t n : String) (a : Attribute) :
    (invWrite t n a).Name = a.Name := by
  simp only [invWrite]
  split_ifs <;> rfl

/-- ID field is untouched by the attribute-overwrite step. -/
theorem invWrite_ID (t n : String) (a : Attribute) :
    (invWrite t n a).ID = a.ID := by
  simp only [invWrite]
  split_ifs <;> rfl

/-- Value written by the attribute-overwrite step, per name. -/
theorem invWrite_Value (t n : String) (a : Attribute) :
    (invWrite t n a).Value =
      if a.Name = some "Notes" then n
      else if a.Name = some "Last Inventoried" then t
      else a.Value := by
  simp only [invWrite]
  by_cases h1 : a.Name = some "Notes"
  · simp [h1]
  · by_cases h2 : a.Name = some "Last Inventoried" <;> simp [h1, h2]

/-- Overwriting attribute values preserves the list of names. -/
theorem attrNames_map_invWrite (t n : String) (l : List Attribute) :
    attrNames (l.map (invWrite t n)) = attrNames l := by
  induction l with
  | nil => rfl
  | cons a rest ih =>
    simp only [attrNames, List.map_cons, List.filterMap_cons] at ih ⊢
    rw [invWrite_Name]
    cases a.Name <;> simp [ih]

/-- Appending a nameless entry adds no attribute name. -/
theorem attrNames_append_nameless (l : List Attribute) (i v : String) :
    attrNames (l ++ [⟨none, i, v⟩]) = attrNames l := by
  simp [attrNames, List.filterMap_append]

/-- Attribute list produced by `inventory_asset` when the
inventory-date flag is off: the in-place overwrites, plus a nameless
Notes entry appended only when no Notes attribute existed and the
notes are non-empty. -/
theorem inventory_attrs_eq (env : Env) (asset : Asset)
    (loc st uid notes : String) :
    (inventory_asset env asset loc st uid notes false).1.Attributes
      = asset.Attributes.map (invWrite env.today notes)
        ++ (if !((attrNames asset.Attributes).contains "Notes")
              && notes != "" then [⟨none, env.getAttrId "Notes", notes⟩]
            else []) := by
  simp only [inventory_asset, Bool.and_false, Bool.false_eq_true, if_false]
  split_ifs <;> simp

/-- Without a Last Inventoried attribute in the input, the overwrite
pass produces none either. -/
theorem filter_lastinv_map_invWrite (t n : String) (l : List Attribute)
    (hc : (attrNames l).contains "Last Inventoried" = false) :
    (l.map (invWrite t n)).filter
      (fun x => x.Name == some "Last Inventoried") = [] := by
  induction l with
  | nil => rfl
  | cons a rest ih =>
    cases hna : a.Name with
    | none =>
      simp only [attrNames, List.filterMap_cons, hna] at hc
      simp only [List.map_cons, List.filter_cons, invWrite_Name, hna]
      simpa using ih hc
    | some nm =>
      simp only [attrNames, List.filterMap_cons, hna, List.contains_cons,
        Bool.or_eq_false_iff, beq_eq_false_iff_ne] at hc
      simp only [List.map_cons, List.filter_cons, invWrite_Name, hna]
      have hne : (some nm == some "Last Inventoried") = false := by
        simp
        exact fun he => hc.1 he.symm
      rw [hne]
      exact ih hc.2

/-- Sites@Home request lookup never raises a taxonomy error: zero or
unchoosable matches abort the process, the rest succeed or crash. -/
theorem find_sah_request_ticket_no_err (env : Env) (uid : String)
    (e : Err) (cs : List RCall) :
    find_sah_request_ticket env uid ≠ (Outc.err e, cs) := by
  unfold find_sah_request_ticket
  repeat' split
  all_goals simp

/-! ## Claim theorems: concrete executions -/

/-- C1: no checkout ever reaches the approval guard.  With the Denied
approval value 43075 on the resolved ticket (and likewise with the
pending value 43070), `checkout` does not fail with LoanRequestDenied
or NoLoanRequest: server.py:147-148 awaits the dict returned by the
synchronous `find_sah_request_ticket`, a TypeError raised before the
approval guard — whose own exceptions are in any case constructed
without `raise` at lines 156-165. -/
theorem checkout_denied_and_pending_guards_never_fire :
    (findTicketAttr tDenied "sah_Request Status").map (fun a => a.Value)
        = some 43075 ∧
    (checkout envDenied (some (bodyU "SAH01234"))).1
        = Outc.crash Crash.typeError ∧
    (checkout envDenied (some (bodyU "SAH01234"))).1
        ≠ Outc.err (Err.loanRequestDenied 900 "abcdef") ∧
    (findTicketAttr tPending "sah_Request Status").map (fun a => a.Value)
        = some 43070 ∧
    (checkout envPending (some (bodyU "SAH01234"))).1
        = Outc.crash Crash.typeError ∧
    (checkout envPending (some (bodyU "SAH01234"))).1
        ≠ Outc.err (Err.noLoanRequest "abcdef") := by
  decide

/-- C4: no checkout ever submits the claimed device record.  The run
through every reachable step crashes with TypeError when the
synchronous `find_sah_request_ticket`'s dict is awaited
(server.py:148); the full remote trace contains no device or ticket
mutation.  And even the mutator itself could never produce the
claimed record: server.py:202 would pass five positional arguments to
the four-parameter `check_out_asset` (another TypeError), whose own
notes would be only the string On Loan until the term text, with no
handle, ticket id or caller comment embedded. -/
theorem checkout_mutation_never_submitted :
    checkout envGood (some (bodyU "SAH01234"))
      = (Outc.crash Crash.typeError,
         [RCall.searchPerson "abcdef", RCall.searchAssets "SAH01234",
          RCall.getAsset 5, RCall.searchTickets "uidP",
          RCall.getTicket 901]) ∧
    (check_out_asset envGood aAvail tApproved "uidP").1
      = Outc.ok {
          ID := 5
          Tag := "SAH01234"
          StatusID := ⟨12, "532"⟩
          LocationID := "L-OFF"
          OwningCustomerID := "uidP"
          Attributes := [⟨some "Notes", "A-N", "On Loan until 2 Weeks"⟩,
            ⟨some "Last Inventoried", "A-LI", "10/12/2026"⟩] } := by
  decide

/-- C5: the already-checked-in guard compares status ids with `is`
(object identity), not equality.  `aLoaned`'s status-id string equals
the available id's content but is a distinct object, so the guard is
skipped, execution reaches the owner lookup past it, and the check-in
then crashes with TypeError at the `check_in_asset` call (unexpected
keyword argument, server.py:75) — neither the claimed
AssetAlreadyCheckedIn failure nor any mutation occurs.  When the
status id IS the cached object (`aLoanedSame`), the guard does fire
with no mutation. -/
theorem dropoff_equal_status_guard_skipped :
    aLoaned.StatusID.val = (envRet.getStatusId "In Stock - Available").val ∧
    aLoaned.StatusID.oid ≠ (envRet.getStatusId "In Stock - Available").oid ∧
    (dropoff envRet (some bodyRet)).1
        ≠ Outc.err (Err.assetAlreadyCheckedIn "TRL12345") ∧
    (dropoff envRet (some bodyRet)).1 = Outc.crash Crash.typeError ∧
    (dropoff envRet (some bodyRet)).2
      = [RCall.searchAssets "TRL12345", RCall.getAsset 6,
         RCall.getPerson "uidP"] ∧
    dropoff envRetSame (some ⟨none, some "TRL12346", none⟩)
      = (Outc.err (Err.assetAlreadyCheckedIn "TRL12346"),
         [RCall.searchAssets "TRL12346", RCall.getAsset 7]) := by
  decide

/-- C6: the check-in success response, and with it the
previous-owner block, is unreachable: server.py:75 passes the keyword
argument comment to `check_in_asset`, whose parameters are only
(tdx, asset, ticket), so every check-in that reaches that call
crashes with TypeError; no execution of `dropoff` ever returns a
success response.  The concrete owned-device run crashes right after
the previous owner is fetched. -/
theorem dropoff_success_response_unreachable :
    aLoaned.OwningCustomerID = pAbc.UID ∧
    (dropoff envRet (some bodyRet)).1 = Outc.crash Crash.typeError ∧
    (∀ (env : Env) (body : Option Body) (r : DropoffResponse),
        (dropoff env body).1 ≠ Outc.ok r) := by
  refine ⟨by decide, by decide, ?_⟩
  intro env body r
  simp only [dropoff]
  repeat' split
  all_goals try simp [rbind]
  all_goals repeat' split
  all_goals simp

/-- C2: counterexample.  `SAH12345` is a Windows-class tag by the
spec's grammar, the resolved ticket is Windows-approved and every
earlier resolution step succeeds — yet checkout neither passes the
device-type guard nor fails with WrongAssetType: it crashes with
TypeError at the await of the synchronous `find_sah_request_ticket`
(server.py:148), before the guard. -/
theorem checkout_windows_tag_sah12345_no_type_guard :
    windowsClassTag "SAH12345" = true ∧
    (findTicketAttr tApproved "sah_Request Status").map (fun a => a.ValueText)
        = some "Windows" ∧
    (checkout envW12 (some (bodyU "SAH12345"))).1
        = Outc.crash Crash.typeError ∧
    (checkout envW12 (some (bodyU "SAH12345"))).1
        ≠ Outc.err (Err.wrongAssetType 901 "Windows") := by
  decide

/-- C3: counterexample.  `SAHM12345` does not match the spec's
whole-string tag pattern, yet the validator accepts it — the source
pattern is unanchored on the right and checked with prefix matching —
so checkout proceeds past tag validation (here to the person lookup)
instead of failing with InvalidAssetTag. -/
theorem checkout_tag_sahm12345_accepted :
    specTagFull "SAHM12345" = false ∧
    assetMatch "SAHM12345" = true ∧
    (checkout env0 (some (bodyU "SAHM12345"))).1
        = Outc.err (Err.personNotFound "abcdef") ∧
    (checkout env0 (some (bodyU "SAHM12345"))).1
        ≠ Outc.err (Err.invalidAsset "SAHM12345") := by
  decide

/-- C8: counterexample.  A device search returning two matches does
not fail with AmbiguousMatch: `_multiple_matches_chooser` is invoked,
the console selection picks the second match, resolution succeeds
with it and the check-in proceeds past resolution to the owner lookup
(crashing only later, at the unrelated `check_in_asset` keyword
TypeError of server.py:75). -/
theorem dropoff_two_matches_no_ambiguous_failure :
    (envDup.searchAssets "TRL11111").length = 2 ∧
    find_asset envDup "TRL11111"
      = (Outc.ok aDeep2,
         [RCall.searchAssets "TRL11111", RCall.getAsset 22]) ∧
    (dropoff envDup (some bodyDup)).1 = Outc.crash Crash.typeError ∧
    (dropoff envDup (some bodyDup)).2
      = [RCall.searchAssets "TRL11111", RCall.getAsset 22,
         RCall.getPerson "uidP"] := by
  decide

/-! ## Claim theorems: general statements -/

/-- C2 (amended): the device-type guard is dead code.  Whenever a
checkout resolves its request ticket, the await of the synchronous
`find_sah_request_ticket`'s dict result (server.py:148) raises
TypeError first, so the guard at lines 184-197 never executes and no
checkout, over any environment and request body, ever fails with
WrongAssetType. -/
theorem checkout_crashes_before_type_guard
    (env : Env) (u tag : String) (c : Option String) (p : Person)
    (ts tf : Ticket)
    (hu : uniqnameMatch (asciiLower u) = true)
    (ht : assetMatch tag = true)
    (hsp : env.searchPerson (asciiLower u) = [p])
    (hst : env.searchTickets p.UID = [ts])
    (hgt : env.getTicket ts.ID = some tf) :
    (checkout env (some ⟨some u, some tag, c⟩)).1 = Outc.crash Crash.typeError
    ∧ (∀ (env2 : Env) (body : Option Body) (tid : Nat) (ty : String),
        (checkout env2 body).1 ≠ Outc.err (Err.wrongAssetType tid ty)) := by
  constructor
  · simp [checkout, find_sah_request_ticket, rbind, hu, ht, hsp, hst, hgt]
  · intro env2 body tid ty
    simp only [checkout]
    repeat' split
    all_goals try simp [rbind]
    all_goals repeat' split
    all_goals try simp
    all_goals
      exact absurd ‹_› (find_sah_request_ticket_no_err _ _ _ _)

/-- C2 (witness): the Windows-approved ticket against the
Windows-class tag SAH12345 crashes with TypeError at the ticket
await and in particular does not yield WrongAssetType. -/
theorem checkout_crashes_before_type_guard_witness :
    (checkout envW12 (some ⟨some "abcdef", some "SAH12345", none⟩)).1
        = Outc.crash Crash.typeError ∧
    (checkout envW12 (some ⟨some "abcdef", some "SAH12345", none⟩)).1
        ≠ Outc.err (Err.wrongAssetType 901 "Windows") := by
  have h := checkout_crashes_before_type_guard envW12 "abcdef" "SAH12345"
    none pAbc tApproved tApproved (by decide) (by decide) (by decide)
    (by decide) (by decide)
  exact ⟨h.1, h.2 envW12 (some ⟨some "abcdef", some "SAH12345", none⟩)
    901 "Windows"⟩

/-- C7: the fulfillment guard is unreachable: with the approved
ticket 903 carrying attached device 77, checkout crashes with
TypeError at the await of the synchronous `find_sah_request_ticket`
(server.py:148) before the guard at lines 167-176 — it does not fail
with LoanAlreadyFulfilled, and the ticket-assets lookup that would
supply the attached device's tag is never issued. -/
theorem checkout_fulfilled_guard_unreachable :
    envFul.getTicketAssets 903 = [77] ∧
    (checkout envFul (some (bodyU "SAH01234"))).1
        = Outc.crash Crash.typeError ∧
    (checkout envFul (some (bodyU "SAH01234"))).1
        ≠ Outc.err (Err.loanAlreadyFulfilled 903 "SAH00077") ∧
    RCall.getTicketAssets 903 ∉ (checkout envFul (some (bodyU "SAH01234"))).2 := by
  decide

/-- C3 (amended): the validator rejects a handle exactly when its
lowercased form fails the `[a-z]` 3-8 pattern (with Python's final
newline allowance), doing so with InvalidIdentifier before any remote
call is issued; it rejects a tag exactly when the tag does not start
with TRL or SAH plus five digits or SAHM plus four digits, with
InvalidAssetTag and still no remote call; and when both patterns
accept, the outcome is never a validation error. -/
theorem checkout_validator_semantics
    (env : Env) (u tag : String) (c : Option String) :
    (uniqnameMatch (asciiLower u) = false →
      checkout env (some ⟨some u, some tag, c⟩)
        = (Outc.err (Err.invalidUniqname (asciiLower u)), []))
    ∧ (uniqnameMatch (asciiLower u) = true → assetMatch tag = false →
      checkout env (some ⟨some u, some tag, c⟩)
        = (Outc.err (Err.invalidAsset tag), []))
    ∧ (uniqnameMatch (asciiLower u) = true → assetMatch tag = true →
      ∀ (s : String),
        (checkout env (some ⟨some u, some tag, c⟩)).1
            ≠ Outc.err (Err.invalidUniqname s)
        ∧ (checkout env (some ⟨some u, some tag, c⟩)).1
            ≠ Outc.err (Err.invalidAsset s)) := by
  refine ⟨?_, ?_, ?_⟩
  · intro hu
    simp [checkout, hu]
  · intro hu ht
    simp [checkout, hu, ht]
  · intro hu ht s
    refine ⟨?_, ?_⟩ <;>
    · simp only [checkout, hu, ht, Bool.not_true, Bool.false_eq_true, if_false]
      repeat' split
      all_goals try simp [rbind]
      all_goals repeat' split
      all_goals try simp
      all_goals
        exact absurd ‹_› (find_sah_request_ticket_no_err _ _ _ _)

/-- C3 (witness): the two-letter handle `AB` is rejected as
InvalidIdentifier with an empty remote-call trace. -/
theorem checkout_validator_semantics_witness :
    checkout env0 (some ⟨some "AB", some "SAH01234", none⟩)
      = (Outc.err (Err.invalidUniqname "ab"), []) := by
  have h := (checkout_validator_semantics env0 "AB" "SAH01234" none).1
    (by decide)
  have hl : asciiLower "AB" = "ab" := by decide
  rw [hl] at h
  exact h

/-- C8 (amended): zero device matches fail the check-in with the
collaborator's object-not-found error before any mutation (in
checkout the asset result is never inspected at all: the ticket-await
TypeError precedes it); more than one person match fails checkout
with the collaborator's multiple-matches error; but more than one
device match does not fail — the interactive chooser selects a match
and resolution succeeds with it. -/
theorem resolution_failure_modes (env : Env) :
    (∀ (tag : String) (un cm : Option String),
        assetMatch tag = true → env.searchAssets tag = [] →
        dropoff env (some ⟨un, some tag, cm⟩)
          = (Outc.err Err.objectNotFound, [RCall.searchAssets tag]))
    ∧ (∀ (u tag : String) (c : Option String) (p q : Person)
          (rest : List Person),
        uniqnameMatch (asciiLower u) = true → assetMatch tag = true →
        env.searchPerson (asciiLower u) = p :: q :: rest →
        (checkout env (some ⟨some u, some tag, c⟩)).1
          = Outc.err (Err.multipleMatches "person"))
    ∧ (∀ (tag : String) (a b ch deep : Asset) (rest : List Asset),
        env.searchAssets tag = a :: b :: rest →
        multipleMatchesChooser env.stdin (a :: b :: rest) = some ch →
        env.getAsset ch.ID = some deep →
        find_asset env tag
          = (Outc.ok deep, [RCall.searchAssets tag, RCall.getAsset ch.ID])) := by
  refine ⟨?_, ?_, ?_⟩
  · intro tag un cm ht hsa
    simp [dropoff, ht, find_asset, hsa, rbind]
  · intro u tag c p q rest hu ht hsp
    simp [checkout, hu, ht, hsp]
  · intro tag a b ch deep rest hsa hch hga
    simp [find_asset, hsa, hch, hga]

/-- C8 (witness): concrete runs of the three resolution modes — an
empty device search fails the check-in with object-not-found, a
duplicate person fails checkout with multiple-matches, and a
duplicate device search succeeds through the chooser. -/
theorem resolution_failure_modes_witness :
    dropoff envRet (some ⟨none, some "TRL99999", none⟩)
      = (Outc.err Err.objectNotFound, [RCall.searchAssets "TRL99999"]) ∧
    (checkout envPdup (some ⟨some "abcdef", some "SAH01234", none⟩)).1
      = Outc.err (Err.multipleMatches "person") ∧
    find_asset envDup "TRL11111"
      = (Outc.ok aDeep2, [RCall.searchAssets "TRL11111", RCall.getAsset 22]) := by
  refine ⟨(resolution_failure_modes envRet).1 "TRL99999" none none
      (by decide) (by decide),
    (resolution_failure_modes envPdup).2.1 "abcdef" "SAH01234" none pAbc pAbc2
      [] (by decide) (by decide) (by decide),
    ?_⟩
  have h := (resolution_failure_modes envDup).2.2 "TRL11111" aShal1 aShal2
    aShal2 aDeep2 [] (by decide) (by decide) (by decide)
  simpa using h

/-- C9: for the inventory update as performed by checkout and
check-in (inventory-date flag off, non-empty notes): a present Notes
attribute leaves the list length unchanged; an absent one appends
exactly one entry, carrying the Notes attribute id and the new value,
at the end; every input position keeps its name and id, with the value
overwritten in place to the new notes for a Notes entry and to today's
date for a Last Inventoried entry; and distinct attribute names stay
distinct. -/
theorem inventory_attribute_update
    (env : Env) (asset : Asset) (loc st uid notes : String)
    (hnotes : notes ≠ "") :
    ((attrNames asset.Attributes).contains "Notes" = true →
      (inventory_asset env asset loc st uid notes false).1.Attributes.length
        = asset.Attributes.length)
    ∧ ((attrNames asset.Attributes).contains "Notes" = false →
      (inventory_asset env asset loc st uid notes false).1.Attributes.length
          = asset.Attributes.length + 1
      ∧ (inventory_asset env asset loc st uid notes false).1.Attributes.getLast?
          = some ⟨none, env.getAttrId "Notes", notes⟩)
    ∧ (∀ i, ∀ h : i < asset.Attributes.length,
        ((inventory_asset env asset loc st uid notes
            false).1.Attributes[i]?).map (fun b => (b.Name, b.ID, b.Value))
          = some ((asset.Attributes[i]).Name, (asset.Attributes[i]).ID,
              if (asset.Attributes[i]).Name = some "Notes" then notes
              else if (asset.Attributes[i]).Name = some "Last Inventoried"
              then env.today else (asset.Attributes[i]).Value))
    ∧ ((attrNames asset.Attributes).Nodup →
        (attrNames
          (inventory_asset env asset loc st uid
            notes false).1.Attributes).Nodup) := by
  have hne : (notes != "") = true := by
    simpa using hnotes
  refine ⟨?_, ?_, ?_, ?_⟩
  · intro hc
    rw [inventory_attrs_eq, hc]
    simp
  · intro hc
    rw [inventory_attrs_eq, hc]
    simp only [Bool.not_false, hne, Bool.and_self, if_true]
    refine ⟨by simp, List.getLast?_concat _⟩
  · intro i h
    have hm : i < (asset.Attributes.map (invWrite env.today notes)).length := by
      simpa using h
    rw [inventory_attrs_eq, List.getElem?_append_left hm, List.getElem?_map,
      List.getElem?_eq_getElem h]
    simp [invWrite_Name, invWrite_ID, invWrite_Value]
  · intro hd
    rw [inventory_attrs_eq]
    split_ifs
    · rw [attrNames_append_nameless, attrNames_map_invWrite]
      exact hd
    · rw [List.append_nil, attrNames_map_invWrite]
      exact hd

/-- C9 (witness): on a device already carrying a Notes attribute the
inventory update keeps the attribute list at its two entries. -/
theorem inventory_attribute_update_witness :
    (inventory_asset env0 aAvail "Offsite" "On Loan" "uidP" "nn"
      false).1.Attributes.length = 2 := by
  have h := (inventory_attribute_update env0 aAvail "Offsite" "On Loan" "uidP"
    "nn" (by decide)).1 (by decide)
  rw [h]
  decide

/-- C10: the check-in device update equals the inventory update with
the inventory-date flag off; a present Last Inventoried attribute is
overwritten to today's date even though check-in's contract covers
location, status, owner and notes; an absent one is never created
(no such entry exists afterwards and the length grows only by the
possible Notes append); and the checkout mutator likewise calls the
inventory update with the flag off. -/
theorem checkin_last_inventoried_frame
    (env : Env) (asset : Asset) (tk : Option Ticket) :
    (check_in_asset env asset tk).1
        = (inventory_asset env asset "MICHIGAN UNION" "In Stock - Reserved" ""
            "Checked in by Tech Consulting" false).1
    ∧ (∀ i, ∀ h : i < asset.Attributes.length,
        (asset.Attributes[i]).Name = some "Last Inventoried" →
        ((check_in_asset env asset tk).1.Attributes[i]?).map (fun b => b.Value)
          = some env.today)
    ∧ ((attrNames asset.Attributes).contains "Last Inventoried" = false →
        (check_in_asset env asset tk).1.Attributes.filter
            (fun x => x.Name == some "Last Inventoried") = []
        ∧ (check_in_asset env asset tk).1.Attributes.length
            = asset.Attributes.length
              + (if "Notes" ∈ attrNames asset.Attributes then 0 else 1))
    ∧ (∀ (a : Asset) (t : Ticket) (uid : String) (la : TicketAttr),
        findTicketAttr t "sah_Loan Length (Term)" = some la →
        (check_out_asset env a t uid).1
          = Outc.ok (inventory_asset env a "Offsite" "On Loan" uid
              ("On Loan until " ++ la.ValueText) false).1) := by
  have hfst : (check_in_asset env asset tk).1
      = (inventory_asset env asset "MICHIGAN UNION" "In Stock - Reserved" ""
          "Checked in by Tech Consulting" false).1 := by
    cases tk <;> rfl
  refine ⟨hfst, ?_, ?_, ?_⟩
  · intro i h hli
    rw [hfst]
    have hm : i < (asset.Attributes.map
        (invWrite env.today "Checked in by Tech Consulting")).length := by
      simpa using h
    rw [inventory_attrs_eq, List.getElem?_append_left hm, List.getElem?_map,
      List.getElem?_eq_getElem h]
    simp [invWrite_Value, hli]
  · intro hc
    rw [hfst, inventory_attrs_eq]
    constructor
    · rw [List.filter_append, filter_lastinv_map_invWrite _ _ _ hc]
      split_ifs <;> simp
    · rw [List.length_append, List.length_map]
      have hsplit : (if (!(attrNames asset.Attributes).contains "Notes"
            && ("Checked in by Tech Consulting" != "")) = true then
            [(⟨none, env.getAttrId "Notes",
              "Checked in by Tech Consulting"⟩ : Attribute)] else []).length
          = if "Notes" ∈ attrNames asset.Attributes then 0 else 1 := by
        split_ifs with h1 h2 <;> simp_all
      rw [hsplit]
  · intro a t uid la hla
    simp [check_out_asset, hla]

/-- C10 (witness): checking in `aLoaned`, whose second attribute is
Last Inventoried, overwrites that attribute's value to today's
date. -/
theorem checkin_last_inventoried_frame_witness :
    ((check_in_asset env0 aLoaned none).1.Attributes[1]?).map (fun b => b.Value)
      = some "10/12/2026" := by
  have h := (checkin_last_inventoried_frame env0 aLoaned none).2.1 1
    (by decide) (by decide)
  simpa using h
